import Mathlib

/-!
Shallow embedding of the connection-handshake and packet-relay core of the
relayer repository (src/cmd/lite.go): the data model (PathEnd, Chain,
connection states, protocol messages), the handshake step functions
(ExecuteConnectionStep, InitializeConnection), the retry loop
(CreateOpenConnections), the paired concurrent fetch helpers
(QueryLatestHeights, GetIBCUpdateHeaders) and the packet message
constructors (MsgRecvPacket, MsgTimeout, MsgAck).

External collaborators (ChainProvider queries, SendMsgs submission, event
parsing, light-client sync) are modelled as an explicit environment of
oracle responses threaded through each step.  Go uint64 arithmetic is
modelled on Nat with an explicit mod 2 ^ 64.  A Go runtime panic (slice
index out of range) is the GoResult.panicked outcome.  Logging calls are
effect-free on the modelled state and are omitted.
-/

/-- Modulus of the Go uint64 type. -/
def uint64Mod : Nat := 2 ^ 64

/-- Connection handshake state (conntypes.State): UNINITIALIZED, INIT,
TRYOPEN, OPEN. -/
inductive ConnState where
  | UNINITIALIZED
  | INIT
  | TRYOPEN
  | OPEN
  deriving DecidableEq, Repr

/-- A light-client verifiable header (tmclient.Header), abstracted to the
height it certifies plus an opaque identity tag so that distinct headers
can be told apart. -/
structure Header where
  height : Nat
  tag : Nat
  deriving DecidableEq, Repr

/-- PathEnd (src/cmd/lite.go): the local identifiers of one side of a relay
path. -/
structure PathEnd where
  ChainID : String
  ClientID : String
  ConnectionID : String
  ChannelID : String
  PortID : String
  Order : String
  deriving DecidableEq, Repr

/-- Chain: chain identifier, its PathEnd and the debug flag.  The
ChainProvider handle is modelled separately by the step environment. -/
structure Chain where
  ChainID : String
  PathEnd : PathEnd
  debug : Bool
  deriving DecidableEq, Repr

/-- Packet (chanTypes.Packet), as built by chanTypes.NewPacket. -/
structure Packet where
  data : List Nat
  sequence : Nat
  sourcePort : String
  sourceChannel : String
  destPort : String
  destChannel : String
  timeoutHeight : Nat
  timeoutTimestamp : Nat
  deriving DecidableEq, Repr

/-- The sdk.Msg values constructed by the embedded code.  Merkle proofs are
abstracted to the connection state they attest (plus the proof height
carried in the message). -/
inductive Msg where
  | MsgUpdateClient (clientID : String) (header : Header) (signer : String)
  | MsgConnectionOpenInit (connectionID clientID counterpartyConnectionID counterpartyClientID : String)
      (signer : String)
  | MsgConnectionOpenTry (connectionID clientID counterpartyConnectionID counterpartyClientID : String)
      (provenCounterpartyState : ConnState) (proofHeight consensusHeight : Nat) (signer : String)
  | MsgConnectionOpenAck (connectionID : String) (provenCounterpartyState : ConnState)
      (proofHeight consensusHeight : Nat) (signer : String)
  | MsgConnectionOpenConfirm (connectionID : String) (provenCounterpartyState : ConnState)
      (proofHeight : Nat) (signer : String)
  | MsgPacket (packet : Packet) (proofHeight : Nat) (signer : String)
  | MsgTimeout (packet : Packet) (nextSequenceRecv : Nat) (proofHeight : Nat) (signer : String)
  | MsgAcknowledgement (packet : Packet) (ack : List Nat) (proofHeight : Nat) (signer : String)
  deriving DecidableEq, Repr

/-- The proof-height field of a constructed message, when it carries one. -/
def Msg.proofHeightOf : Msg → Option Nat
  | .MsgUpdateClient _ _ _ => none
  | .MsgConnectionOpenInit _ _ _ _ _ => none
  | .MsgConnectionOpenTry _ _ _ _ _ h _ _ => some h
  | .MsgConnectionOpenAck _ _ h _ _ => some h
  | .MsgConnectionOpenConfirm _ _ h _ => some h
  | .MsgPacket _ h _ => some h
  | .MsgTimeout _ _ h _ => some h
  | .MsgAcknowledgement _ _ h _ => some h

/-- Whether a message is one of the connection-handshake messages. -/
def Msg.isHandshake : Msg → Bool
  | .MsgConnectionOpenInit _ _ _ _ _ => true
  | .MsgConnectionOpenTry _ _ _ _ _ _ _ _ => true
  | .MsgConnectionOpenAck _ _ _ _ _ => true
  | .MsgConnectionOpenConfirm _ _ _ _ => true
  | _ => false

/-- UpdateClient (src/cmd/lite.go): tmclient.NewMsgUpdateClient on the
ClientID of this PathEnd with the counterparty header. -/
def PathEnd.UpdateClient (pe : PathEnd) (dstHeader : Header) (signer : String) : Msg :=
  .MsgUpdateClient pe.ClientID dstHeader signer

/-- ConnInit (src/cmd/lite.go): connTypes.NewMsgConnectionOpenInit from the
local and counterparty identifiers. -/
def PathEnd.ConnInit (pe : PathEnd) (dst : PathEnd) (signer : String) : Msg :=
  .MsgConnectionOpenInit pe.ConnectionID pe.ClientID dst.ConnectionID dst.ClientID signer

/-- Result of querying one connection end (conntypes.QueryConnectionResponse),
restricted to the fields the embedded code reads: the connection state and
the height the proof was generated at.  The merkle proof itself is
abstracted to the state it attests. -/
structure ConnQueryResponse where
  State : ConnState
  ProofHeight : Nat
  deriving DecidableEq, Repr

/-- Modelled from the spec: the SyncHeaders-based overload
`ConnTry(dst, sh, addr)` called by ExecuteConnectionStep and
InitializeConnection is not among the source files (only the older
proof-based `ConnTry` is).  Per the spec it submits ConnOpenTry "proving
counterparty's INIT state"; following the in-source proof-based ConnTry it
carries the counterparty proof at ProofHeight+1 and a consensus-state
height.  The counterparty connection response is the one observed at the
synchronized height of the step. -/
def PathEnd.ConnTry (pe : PathEnd) (dst : PathEnd) (dstConnState : ConnQueryResponse)
    (dstCsHeight : Nat) (signer : String) : Msg :=
  .MsgConnectionOpenTry pe.ConnectionID pe.ClientID dst.ConnectionID dst.ClientID
    dstConnState.State ((dstConnState.ProofHeight + 1) % uint64Mod) dstCsHeight signer

/-- Modelled from the spec: the SyncHeaders-based overload
`ConnAck(dst, sh, addr)` called by ExecuteConnectionStep is not among the
source files.  Per the spec it submits ConnOpenAck "proving dst's TRYOPEN
state"; following the in-source proof-based ConnAck it carries the
counterparty proof at ProofHeight+1 and a consensus-state height. -/
def PathEnd.ConnAck (pe : PathEnd) (dstConnState : ConnQueryResponse)
    (dstCsHeight : Nat) (signer : String) : Msg :=
  .MsgConnectionOpenAck pe.ConnectionID dstConnState.State
    ((dstConnState.ProofHeight + 1) % uint64Mod) dstCsHeight signer

/-- ConnConfirm (src/cmd/lite.go): connTypes.NewMsgConnectionOpenConfirm from
the counterparty connection response, carrying ProofHeight+1. -/
def PathEnd.ConnConfirm (pe : PathEnd) (dstConnState : ConnQueryResponse) (signer : String) : Msg :=
  .MsgConnectionOpenConfirm pe.ConnectionID dstConnState.State
    ((dstConnState.ProofHeight + 1) % uint64Mod) signer

/-- NewPacket (src/cmd/lite.go): chanTypes.NewPacket with this PathEnd as
source and `dst` as destination. -/
def PathEnd.NewPacket (pe : PathEnd) (dst : PathEnd) (sequence : Nat) (packetData : List Nat)
    (timeoutHeight timeoutStamp : Nat) : Packet :=
  { data := packetData
    sequence := sequence
    sourcePort := pe.PortID
    sourceChannel := pe.ChannelID
    destPort := dst.PortID
    destChannel := dst.ChannelID
    timeoutHeight := timeoutHeight
    timeoutTimestamp := timeoutStamp }

/-- MsgRecvPacket (src/cmd/lite.go): chanTypes.NewMsgPacket of the packet
built on `dst` with this PathEnd as counterparty, carrying proofHeight+1. -/
def PathEnd.MsgRecvPacket (pe : PathEnd) (dst : PathEnd) (sequence timeoutHeight timeoutStamp : Nat)
    (packetData : List Nat) (proofHeight : Nat) (signer : String) : Msg :=
  .MsgPacket (dst.NewPacket pe sequence packetData timeoutHeight timeoutStamp)
    ((proofHeight + 1) % uint64Mod) signer

/-- MsgTimeout (src/cmd/lite.go): chanTypes.NewMsgTimeout of the packet built
on this PathEnd, carrying proofHeight+1. -/
def PathEnd.MsgTimeout (pe : PathEnd) (dst : PathEnd) (packetData : List Nat)
    (seq timeout timeoutStamp : Nat) (proofHeight : Nat) (signer : String) : Msg :=
  .MsgTimeout (pe.NewPacket dst seq packetData timeout timeoutStamp) seq
    ((proofHeight + 1) % uint64Mod) signer

/-- MsgAck (src/cmd/lite.go): chanTypes.NewMsgAcknowledgement of the packet
built on this PathEnd, carrying proofHeight+1. -/
def PathEnd.MsgAck (pe : PathEnd) (dst : PathEnd) (sequence timeoutHeight timeoutStamp : Nat)
    (ack packetData : List Nat) (proofHeight : Nat) (signer : String) : Msg :=
  .MsgAcknowledgement (pe.NewPacket dst sequence packetData timeoutHeight timeoutStamp) ack
    ((proofHeight + 1) % uint64Mod) signer

/-- Go error values produced or propagated by the embedded code.  Errors of
external collaborators are opaque tags; the two fmt.Errorf sites of the
embedded code are explicit constructors carrying their format arguments. -/
inductive GoErr where
  | external (tag : Nat)
  | connectionFailed (srcChainID srcClientID srcConnectionID dstChainID dstClientID dstConnectionID : String)
  | connectionEndsAlreadyCreated
  deriving DecidableEq, Repr

/-- Decidable equality for Except values over decidable component types. -/
instance {ε α : Type} [DecidableEq ε] [DecidableEq α] : DecidableEq (Except ε α) := fun x y =>
  match x, y with
  | .ok a, .ok b =>
    if h : a = b then isTrue (by rw [h])
    else isFalse fun hc => h (Except.noConfusion hc id)
  | .error a, .error b =>
    if h : a = b then isTrue (by rw [h])
    else isFalse fun hc => h (Except.noConfusion hc id)
  | .ok _, .error _ => isFalse fun hc => Except.noConfusion hc
  | .error _, .ok _ => isFalse fun hc => Except.noConfusion hc

/-- One per-message log of a transaction result; its event list is an opaque
token consumed by ParseConnectionIDFromEvents. -/
structure TxLog where
  Events : Nat
  deriving DecidableEq, Repr

/-- The transaction result returned by SendMsgs, restricted to the field the
embedded code reads (res.Logs). -/
structure TxResponse where
  Logs : List TxLog
  deriving DecidableEq, Repr

/-- The triple returned by Chain.SendMsgs: (result, success, error). -/
structure SendResult where
  res : TxResponse
  success : Bool
  err : Option GoErr
  deriving DecidableEq, Repr

/-- One invocation of SendMsgs: the ChainID of the chain whose SendMsgs was
called, and the submitted message list. -/
structure Submission where
  target : String
  msgs : List Msg
  deriving DecidableEq, Repr

/-- Outcome of running a piece of Go code: a returned value or a runtime
panic (slice index out of range). -/
inductive GoResult (α : Type) where
  | ret (a : α)
  | panicked
  deriving DecidableEq, Repr

/-- Oracle environment of one handshake step: the responses of every
external collaborator the step consults.  Within one step the observed
chain state is a fixed snapshot (the source re-queries it every step and
never caches across steps). -/
structure StepEnv where
  /-- Error of NewSyncHeaders, if it fails. -/
  newSyncHeadersErr : Option GoErr
  /-- Error of sh.GetTrustedHeaders, if it fails. -/
  getTrustedHeadersErr : Option GoErr
  /-- Header of src returned by sh.GetTrustedHeaders. -/
  srcUpdateHeader : Header
  /-- Header of dst returned by sh.GetTrustedHeaders. -/
  dstUpdateHeader : Header
  /-- sh.GetHeight for the src chain. -/
  srcHeight : Nat
  /-- sh.GetHeight for the dst chain. -/
  dstHeight : Nat
  /-- Error of QueryConnectionPair, if it fails. -/
  queryConnectionPairErr : Option GoErr
  /-- Connection end of src observed at the synchronized height. -/
  srcConn : ConnQueryResponse
  /-- Connection end of dst observed at the synchronized height. -/
  dstConn : ConnQueryResponse
  /-- Consensus-state height used when proving the src connection. -/
  srcCsHeight : Nat
  /-- Consensus-state height used when proving the dst connection. -/
  dstCsHeight : Nat
  /-- Error of the ConnTry construction, if it fails. -/
  connTryErr : Option GoErr
  /-- Error of the ConnAck construction, if it fails. -/
  connAckErr : Option GoErr
  /-- src.MustGetAddress (assumed not to panic: keys are configured). -/
  srcAddr : String
  /-- dst.MustGetAddress (assumed not to panic: keys are configured). -/
  dstAddr : String
  /-- src.SendMsgs. -/
  srcSendMsgs : List Msg → SendResult
  /-- dst.SendMsgs. -/
  dstSendMsgs : List Msg → SendResult
  /-- ParseConnectionIDFromEvents applied to the events of one log. -/
  parseConnectionIDFromEvents : Nat → Except GoErr String
  /-- Error of GetLatestLightHeights inside the debug block, if it fails. -/
  getLatestLightHeightsErr : Option GoErr
  /-- Error of the QueryConnectionPair call inside the debug block. -/
  debugQueryConnectionPairErr : Option GoErr

/-- Assignment `c.PathEnd.ConnectionID = connectionID` on a chain. -/
def setConnectionID (c : Chain) (connectionID : String) : Chain :=
  { c with PathEnd := { c.PathEnd with ConnectionID := connectionID } }

/-- Return value of InitializeConnection together with the state it leaves
behind: the (bool, error) pair, the two chains after any PathEnd mutation,
and the SendMsgs invocations performed. -/
structure InitResult where
  ok : Bool
  err : Option GoErr
  src' : Chain
  dst' : Chain
  submissions : List Submission
  deriving DecidableEq, Repr

/-- InitializeConnection (src/cmd/lite.go).  Branch selection mirrors the Go
switch on emptiness of the two ConnectionID fields; each branch submits
[UpdateClient, ConnInit-or-ConnTry], and on success reads res.Logs[1]
(a panic when fewer than two logs are present), parses the new connection
identifier from its events and assigns it to the PathEnd that was empty.
The default branch errors: connection ends already created. -/
def InitializeConnection (env : StepEnv) (src dst : Chain)
    (srcUpdateHeader dstUpdateHeader : Header) : GoResult InitResult :=
  if src.PathEnd.ConnectionID = "" ∧ dst.PathEnd.ConnectionID = "" then
    -- OpenInit on source: neither connection has been initialized
    let msgs := [src.PathEnd.UpdateClient dstUpdateHeader env.srcAddr,
                 src.PathEnd.ConnInit dst.PathEnd env.srcAddr]
    let r := env.srcSendMsgs msgs
    let subs := [⟨src.ChainID, msgs⟩]
    if !r.success then .ret ⟨false, r.err, src, dst, subs⟩
    else
      match r.res.Logs.get? 1 with
      | none => .panicked
      | some log =>
        match env.parseConnectionIDFromEvents log.Events with
        | .error e => .ret ⟨false, some e, src, dst, subs⟩
        | .ok connectionID => .ret ⟨true, none, setConnectionID src connectionID, dst, subs⟩
  else if src.PathEnd.ConnectionID = "" ∧ dst.PathEnd.ConnectionID ≠ "" then
    -- OpenTry on source: only the counterparty connection exists
    match env.connTryErr with
    | some e => .ret ⟨false, some e, src, dst, []⟩
    | none =>
      let openTry := src.PathEnd.ConnTry dst.PathEnd env.dstConn env.dstCsHeight env.srcAddr
      let msgs := [src.PathEnd.UpdateClient dstUpdateHeader env.srcAddr, openTry]
      let r := env.srcSendMsgs msgs
      let subs := [⟨src.ChainID, msgs⟩]
      if !r.success then .ret ⟨false, r.err, src, dst, subs⟩
      else
        match r.res.Logs.get? 1 with
        | none => .panicked
        | some log =>
          match env.parseConnectionIDFromEvents log.Events with
          | .error e => .ret ⟨false, some e, src, dst, subs⟩
          | .ok connectionID => .ret ⟨true, none, setConnectionID src connectionID, dst, subs⟩
  else if src.PathEnd.ConnectionID ≠ "" ∧ dst.PathEnd.ConnectionID = "" then
    -- OpenTry on counterparty: only the source connection exists
    match env.connTryErr with
    | some e => .ret ⟨false, some e, src, dst, []⟩
    | none =>
      let openTry := dst.PathEnd.ConnTry src.PathEnd env.srcConn env.srcCsHeight env.dstAddr
      let msgs := [dst.PathEnd.UpdateClient srcUpdateHeader env.dstAddr, openTry]
      let r := env.dstSendMsgs msgs
      let subs := [⟨dst.ChainID, msgs⟩]
      if !r.success then .ret ⟨false, r.err, src, dst, subs⟩
      else
        match r.res.Logs.get? 1 with
        | none => .panicked
        | some log =>
          match env.parseConnectionIDFromEvents log.Events with
          | .error e => .ret ⟨false, some e, src, dst, subs⟩
          | .ok connectionID => .ret ⟨true, none, src, setConnectionID dst connectionID, subs⟩
  else
    .ret ⟨false, some .connectionEndsAlreadyCreated, src, dst, []⟩

/-- The switch of ExecuteConnectionStep: from the observed connection state
pair, the message bundle to submit and the `last` flag; branches whose
ConnTry or ConnAck construction fails propagate that error.  An unmatched
state pair leaves msgs empty and last false, exactly as the Go switch with
no default case. -/
def connectionStepMsgs (env : StepEnv) (src dst : Chain) : Except GoErr (List Msg × Bool) :=
  if env.srcConn.State = .INIT ∧ env.dstConn.State = .INIT then
    -- OpenTry on source (crossing hellos)
    match env.connTryErr with
    | some e => .error e
    | none =>
      .ok ([src.PathEnd.UpdateClient env.dstUpdateHeader env.srcAddr,
            src.PathEnd.ConnTry dst.PathEnd env.dstConn env.dstCsHeight env.srcAddr], false)
  else if (env.srcConn.State = .INIT ∨ env.srcConn.State = .TRYOPEN) ∧ env.dstConn.State = .TRYOPEN then
    -- OpenAck on source
    match env.connAckErr with
    | some e => .error e
    | none =>
      .ok ([src.PathEnd.UpdateClient env.dstUpdateHeader env.srcAddr,
            src.PathEnd.ConnAck env.dstConn env.dstCsHeight env.srcAddr], false)
  else if env.srcConn.State = .TRYOPEN ∧ env.dstConn.State = .INIT then
    -- OpenAck on counterparty
    match env.connAckErr with
    | some e => .error e
    | none =>
      .ok ([dst.PathEnd.UpdateClient env.srcUpdateHeader env.dstAddr,
            dst.PathEnd.ConnAck env.srcConn env.srcCsHeight env.dstAddr], false)
  else if env.srcConn.State = .TRYOPEN ∧ env.dstConn.State = .OPEN then
    -- OpenConfirm on source
    .ok ([src.PathEnd.UpdateClient env.dstUpdateHeader env.srcAddr,
          src.PathEnd.ConnConfirm env.dstConn env.srcAddr], true)
  else if env.srcConn.State = .OPEN ∧ env.dstConn.State = .TRYOPEN then
    -- OpenConfirm on counterparty
    .ok ([dst.PathEnd.UpdateClient env.srcUpdateHeader env.dstAddr,
          dst.PathEnd.ConnConfirm env.srcConn env.dstAddr], true)
  else
    .ok ([], false)

/-- Return value of ExecuteConnectionStep together with the state it leaves
behind: the (success, last, error) triple, the two chains after any PathEnd
mutation, and the SendMsgs invocations performed. -/
structure StepResult where
  success : Bool
  last : Bool
  err : Option GoErr
  src' : Chain
  dst' : Chain
  submissions : List Submission
  deriving DecidableEq, Repr

/-- ExecuteConnectionStep (src/cmd/lite.go): sync headers, take the
identifier-initialization path when either ConnectionID is empty, otherwise
query the connection pair, build the bundle from the switch, and submit it.
The submission after the switch is `dst.SendMsgs(msgs)` for every branch,
exactly as in the source. -/
def ExecuteConnectionStep (env : StepEnv) (src dst : Chain) : GoResult StepResult :=
  match env.newSyncHeadersErr with
  | some e => .ret ⟨false, false, some e, src, dst, []⟩
  | none =>
    match env.getTrustedHeadersErr with
    | some e => .ret ⟨false, false, some e, src, dst, []⟩
    | none =>
      if src.PathEnd.ConnectionID = "" ∨ dst.PathEnd.ConnectionID = "" then
        match InitializeConnection env src dst env.srcUpdateHeader env.dstUpdateHeader with
        | .panicked => .panicked
        | .ret r =>
          match r.err with
          | some e => .ret ⟨false, false, some e, r.src', r.dst', r.submissions⟩
          | none => .ret ⟨r.ok, false, none, r.src', r.dst', r.submissions⟩
      else
        match env.queryConnectionPairErr with
        | some e => .ret ⟨false, false, some e, src, dst, []⟩
        | none =>
          match connectionStepMsgs env src dst with
          | .error e => .ret ⟨false, false, some e, src, dst, []⟩
          | .ok (msgs, last) =>
            let r := env.dstSendMsgs msgs
            if !r.success then .ret ⟨false, false, r.err, src, dst, [⟨dst.ChainID, msgs⟩]⟩
            else .ret ⟨true, last, none, src, dst, [⟨dst.ChainID, msgs⟩]⟩

/-- Outcome of the CreateOpenConnections loop. -/
inductive LoopOut where
  | done
  | failure (e : GoErr)
  | panicked
  | running
  deriving DecidableEq, Repr

/-- State of CreateOpenConnections when it stops: the outcome, the number of
ExecuteConnectionStep invocations performed, and the two chains. -/
structure LoopResult where
  out : LoopOut
  attempts : Nat
  src' : Chain
  dst' : Chain
  deriving DecidableEq, Repr

/-- The retry loop of CreateOpenConnections (src/cmd/lite.go).  `envs i` is
the oracle environment of the i-th ExecuteConnectionStep invocation (the
chains evolve between ticks); `failed` is the consecutive-failure counter,
a Go uint64, incremented mod 2 ^ 64; `fuel` bounds the number of iterations
the model unrolls (LoopOut.running means the loop was still running).
Mirrors the Go switch: error returns immediately; success plus last runs
the debug block and returns nil; success resets the counter; failure
increments it and aborts once it exceeds maxRetries. -/
def CreateOpenConnectionsLoop (envs : Nat → StepEnv) (maxRetries : Nat) :
    Chain → Chain → Nat → Nat → Nat → LoopResult
  | src, dst, _, attempts, 0 => ⟨.running, attempts, src, dst⟩
  | src, dst, failed, attempts, fuel + 1 =>
    let env := envs attempts
    match ExecuteConnectionStep env src dst with
    | .panicked => ⟨.panicked, attempts + 1, src, dst⟩
    | .ret r =>
      match r.err with
      | some e => ⟨.failure e, attempts + 1, r.src', r.dst'⟩
      | none =>
        if r.success && r.last then
          if src.debug then
            match env.getLatestLightHeightsErr with
            | some e => ⟨.failure e, attempts + 1, r.src', r.dst'⟩
            | none =>
              match env.debugQueryConnectionPairErr with
              | some e => ⟨.failure e, attempts + 1, r.src', r.dst'⟩
              | none => ⟨.done, attempts + 1, r.src', r.dst'⟩
          else ⟨.done, attempts + 1, r.src', r.dst'⟩
        else if r.success then
          CreateOpenConnectionsLoop envs maxRetries r.src' r.dst' 0 (attempts + 1) fuel
        else
          let failed' := (failed + 1) % uint64Mod
          if failed' > maxRetries then
            ⟨.failure (.connectionFailed r.src'.ChainID r.src'.PathEnd.ClientID
                r.src'.PathEnd.ConnectionID r.dst'.ChainID r.dst'.PathEnd.ClientID
                r.dst'.PathEnd.ConnectionID),
              attempts + 1, r.src', r.dst'⟩
          else
            CreateOpenConnectionsLoop envs maxRetries r.src' r.dst' failed' (attempts + 1) fuel

/-- CreateOpenConnections (src/cmd/lite.go).  `validateClientPathsErr` is the
outcome of ValidateClientPaths, modelled from the spec ("client identifiers
must be filled in") since its body is not among the source files; on nil it
enters the ticker loop with the failure counter at zero. -/
def CreateOpenConnections (validateClientPathsErr : Option GoErr) (envs : Nat → StepEnv)
    (src dst : Chain) (maxRetries : Nat) (fuel : Nat) : LoopResult :=
  match validateClientPathsErr with
  | some e => ⟨.failure e, 0, src, dst⟩
  | none => CreateOpenConnectionsLoop envs maxRetries src dst 0 0 fuel

/-- Oracle environment of one paired concurrent fetch across the two chains:
the outcome of each per-chain call issued by the errgroup goroutines. -/
structure FetchEnv where
  /-- src.ChainProvider.QueryLatestHeight. -/
  srcLatestHeight : Except GoErr Int
  /-- dst.ChainProvider.QueryLatestHeight. -/
  dstLatestHeight : Except GoErr Int
  /-- src.GetIBCUpdateHeader. -/
  srcIBCUpdateHeader : Except GoErr Header
  /-- dst.GetIBCUpdateHeader. -/
  dstIBCUpdateHeader : Except GoErr Header
  deriving DecidableEq, Repr

/-- Whether an external call succeeded. -/
def exceptIsOk {α : Type} : Except GoErr α → Bool
  | .ok _ => true
  | .error _ => false

/-- QueryLatestHeights (src/cmd/lite.go): both heights are fetched by
errgroup goroutines into named int64 returns (zero on a failed fetch) and
eg.Wait reports the first non-nil error.  Completion order is
scheduling-dependent; the model reports the src error first — the theorems
below use only whether the reported error is nil, which is
scheduling-independent. -/
def QueryLatestHeights (env : FetchEnv) : Int × Int × Option GoErr :=
  let srch : Int := match env.srcLatestHeight with | .ok h => h | .error _ => 0
  let dsth : Int := match env.dstLatestHeight with | .ok h => h | .error _ => 0
  let err : Option GoErr :=
    match env.srcLatestHeight with
    | .error e => some e
    | .ok _ => match env.dstLatestHeight with | .error e => some e | .ok _ => none
  (srch, dsth, err)

/-- GetIBCUpdateHeaders (src/cmd/lite.go): both headers are fetched by
errgroup goroutines; if eg.Wait reports an error the function returns
(nil, nil, err), discarding any header the other goroutine fetched. -/
def GetIBCUpdateHeaders (env : FetchEnv) : Option Header × Option Header × Option GoErr :=
  match env.srcIBCUpdateHeader, env.dstIBCUpdateHeader with
  | .ok srcHeader, .ok dstHeader => (some srcHeader, some dstHeader, none)
  | .error e, _ => (none, none, some e)
  | .ok _, .error e => (none, none, some e)

/-- A sequence of successive GetIBCUpdateHeaders calls.  The Go function
reads and writes no package-level state, so the i-th call sees only the
fetches of its own invocation. -/
def GetIBCUpdateHeadersCalls (envs : List FetchEnv) :
    List (Option Header × Option Header × Option GoErr) :=
  envs.map GetIBCUpdateHeaders

/-- The `last` component returned by a step (false if the step panicked and
returned nothing). -/
def stepLastOf : GoResult StepResult → Bool
  | .ret r => r.last
  | .panicked => false

/-- The `success` component returned by a step (false if the step panicked
and returned nothing). -/
def stepSuccessOf : GoResult StepResult → Bool
  | .ret r => r.success
  | .panicked => false

/-- The SendMsgs invocations a step performed. -/
def submissionsOfStep : GoResult StepResult → List Submission
  | .ret r => r.submissions
  | .panicked => []

/-- The SendMsgs invocations an InitializeConnection call performed. -/
def submissionsOfInit : GoResult InitResult → List Submission
  | .ret r => r.submissions
  | .panicked => []

/-- Whether a connection state pair matches one of the five rows of the
switch of ExecuteConnectionStep. -/
def connTableMatches (s d : ConnState) : Bool :=
  decide (s = .INIT ∧ d = .INIT) ||
  decide ((s = .INIT ∨ s = .TRYOPEN) ∧ d = .TRYOPEN) ||
  decide (s = .TRYOPEN ∧ d = .INIT) ||
  decide (s = .TRYOPEN ∧ d = .OPEN) ||
  decide (s = .OPEN ∧ d = .TRYOPEN)

/-- Shape of a submitted bundle: either it carries no message at all, or it
is exactly [UpdateClient, handshake message] where the UpdateClient is
built on the client of the submitting side with the freshly synchronized
header of the counterparty. -/
def bundleShapedB (srcClientID dstClientID : String) (srcHdr dstHdr : Header)
    (srcSigner dstSigner : String) (sub : Submission) : Bool :=
  match sub.msgs with
  | [] => true
  | [Msg.MsgUpdateClient cid h s, m] =>
    m.isHandshake &&
      (decide (cid = srcClientID ∧ h = dstHdr ∧ s = srcSigner) ||
       decide (cid = dstClientID ∧ h = srcHdr ∧ s = dstSigner))
  | _ => false

/-- Whether `c2` differs from `c1` at most by an assignment of the
ConnectionID field of its PathEnd, and only when that field was empty. -/
def onlyConnIDAssignedB (c1 c2 : Chain) : Bool :=
  decide (c2 = c1) ||
  (decide (c1.PathEnd.ConnectionID = "") && decide (c2 = setConnectionID c1 c2.PathEnd.ConnectionID))

/-- Whether an InitializeConnection result records exactly one submission
whose SendMsgs call (on the side selected by the branch that ran) reported
success, and whose second log parses to exactly the connection identifier
now stored on the side that was empty. -/
def initSendParse (env : StepEnv) (src : Chain) (r : InitResult) : Bool :=
  match r.submissions with
  | [sub] =>
    let sr := if src.PathEnd.ConnectionID = "" then env.srcSendMsgs sub.msgs
              else env.dstSendMsgs sub.msgs
    let assigned := if src.PathEnd.ConnectionID = "" then r.src'.PathEnd.ConnectionID
                    else r.dst'.PathEnd.ConnectionID
    sr.success &&
      (match sr.res.Logs.get? 1 with
       | some log => decide (env.parseConnectionIDFromEvents log.Events = .ok assigned)
       | none => false)
  | _ => false

/-- Sample header of the src chain. -/
def hdrSrc : Header := ⟨100, 0⟩

/-- Sample header of the dst chain. -/
def hdrDst : Header := ⟨200, 1⟩

/-- Sample PathEnd of the src chain. -/
def peSrc : PathEnd := ⟨"ibc0", "clientA", "connAB", "chanAB", "transfer", "ORDERED"⟩

/-- Sample PathEnd of the dst chain. -/
def peDst : PathEnd := ⟨"ibc1", "clientB", "connBA", "chanBA", "transfer", "ORDERED"⟩

/-- Sample src chain with its connection identifier set. -/
def chainSrc : Chain := ⟨"ibc0", peSrc, false⟩

/-- Sample dst chain with its connection identifier set. -/
def chainDst : Chain := ⟨"ibc1", peDst, false⟩

/-- Sample src chain with an empty connection identifier. -/
def chainSrcE : Chain := ⟨"ibc0", { peSrc with ConnectionID := "" }, false⟩

/-- Sample dst chain with an empty connection identifier. -/
def chainDstE : Chain := ⟨"ibc1", { peDst with ConnectionID := "" }, false⟩

/-- A SendMsgs result that succeeds with two logs. -/
def okSend : SendResult := ⟨⟨[⟨10⟩, ⟨11⟩]⟩, true, none⟩

/-- Base sample environment: no external failure, both ends observed at
INIT, submissions accepted. -/
def baseEnv : StepEnv :=
  { newSyncHeadersErr := none
    getTrustedHeadersErr := none
    srcUpdateHeader := hdrSrc
    dstUpdateHeader := hdrDst
    srcHeight := 100
    dstHeight := 200
    queryConnectionPairErr := none
    srcConn := ⟨.INIT, 99⟩
    dstConn := ⟨.INIT, 199⟩
    srcCsHeight := 98
    dstCsHeight := 198
    connTryErr := none
    connAckErr := none
    srcAddr := "addr0"
    dstAddr := "addr1"
    srcSendMsgs := fun _ => okSend
    dstSendMsgs := fun _ => okSend
    parseConnectionIDFromEvents := fun _ => .ok "connNew"
    getLatestLightHeightsErr := none
    debugQueryConnectionPairErr := none }

/-- Environment observing (OPEN, OPEN): no row of the decision table. -/
def envOpenOpen : StepEnv := { baseEnv with srcConn := ⟨.OPEN, 99⟩, dstConn := ⟨.OPEN, 199⟩ }

/-- Environment where dst.SendMsgs rejects the transaction and reports a
non-nil error alongside success=false. -/
def envRejectErr : StepEnv := { baseEnv with dstSendMsgs := fun _ => ⟨⟨[]⟩, false, some (.external 7)⟩ }

/-- Environment where dst.SendMsgs rejects the transaction with a nil
error. -/
def envReject : StepEnv := { baseEnv with dstSendMsgs := fun _ => ⟨⟨[]⟩, false, none⟩ }

/-- Environment observing (TRYOPEN, OPEN) whose submission is rejected. -/
def envConfirmReject : StepEnv :=
  { baseEnv with srcConn := ⟨.TRYOPEN, 99⟩, dstConn := ⟨.OPEN, 199⟩,
                 dstSendMsgs := fun _ => ⟨⟨[]⟩, false, none⟩ }

/-- Environment observing (TRYOPEN, OPEN) whose submission succeeds. -/
def envConfirmOk : StepEnv := { baseEnv with srcConn := ⟨.TRYOPEN, 99⟩, dstConn := ⟨.OPEN, 199⟩ }

/-- Environment whose successful submissions carry a single log. -/
def envShortLogs : StepEnv :=
  { baseEnv with srcSendMsgs := fun _ => ⟨⟨[⟨10⟩]⟩, true, none⟩,
                 dstSendMsgs := fun _ => ⟨⟨[⟨10⟩]⟩, true, none⟩ }

/-- Fetch environment where every call succeeds. -/
def fetchOk : FetchEnv := ⟨.ok 100, .ok 200, .ok hdrSrc, .ok hdrDst⟩

/-- Fetch environment where the dst side fails on both paired fetches. -/
def fetchDstFail : FetchEnv := ⟨.ok 100, .error (.external 3), .ok hdrSrc, .error (.external 4)⟩

/-- The crossing-hellos bundle built for the src chain by the (INIT, INIT)
branch of the sample environments. -/
def crossingHellosMsgs : List Msg :=
  [.MsgUpdateClient "clientA" hdrDst "addr0",
   .MsgConnectionOpenTry "connAB" "clientA" "connBA" "clientB" .INIT 200 198 "addr0"]

/-- The crossing-hellos bundle as submitted by the source code: through
dst.SendMsgs, on the dst chain. -/
def rejectSubmission : Submission := ⟨"ibc1", crossingHellosMsgs⟩

/-- The OpenInit bundle built by InitializeConnection for the sample chains
with both connection identifiers empty. -/
def initOpenInitMsgs : List Msg :=
  [.MsgUpdateClient "clientA" hdrDst "addr0",
   .MsgConnectionOpenInit "" "clientA" "" "clientB" "addr0"]

/-- The result of a successful OpenInit on the sample chains with both
connection identifiers empty. -/
def rInitSample : InitResult :=
  ⟨true, none, setConnectionID chainSrcE "connNew", chainDstE, [⟨"ibc0", initOpenInitMsgs⟩]⟩

/-- C1: in the crossing-hellos case (both connection ends observed at INIT)
the step builds the UpdateClient-plus-ConnOpenTry bundle for the chain
passed as src — the UpdateClient is on the src client with the dst header
and the ConnOpenTry is built from the src PathEnd, proving the INIT state
of dst — but the single submission site of ExecuteConnectionStep then
hands this bundle to dst.SendMsgs: the recorded submission targets the dst
chain identifier, not the src one, contradicting the in-source comments
("submit to source chain") and the claim. -/
theorem c1_crossing_hellos_bundle_submitted_on_dst :
    ExecuteConnectionStep baseEnv chainSrc chainDst =
        .ret ⟨true, false, none, chainSrc, chainDst, [⟨chainDst.ChainID, crossingHellosMsgs⟩]⟩
      ∧ chainDst.ChainID ≠ chainSrc.ChainID
      ∧ crossingHellosMsgs.get? 0 =
          some (chainSrc.PathEnd.UpdateClient baseEnv.dstUpdateHeader baseEnv.srcAddr)
      ∧ crossingHellosMsgs.get? 1 =
          some (chainSrc.PathEnd.ConnTry chainDst.PathEnd baseEnv.dstConn baseEnv.dstCsHeight
            baseEnv.srcAddr)
      ∧ baseEnv.srcConn.State = .INIT ∧ baseEnv.dstConn.State = .INIT := by
  decide

/-- C2 counterexample: at the observed pair (OPEN, OPEN) no decision-table
row matches, yet ExecuteConnectionStep reports no error at all — it calls
SendMsgs on dst with an empty bundle and returns success=true, err=nil —
refuting the claim that a non-matching pair is reported as a
configuration/logic error instead of reaching SendMsgs. -/
theorem c2_counterexample_open_open_not_an_error :
    ExecuteConnectionStep envOpenOpen chainSrc chainDst =
        .ret ⟨true, false, none, chainSrc, chainDst, [⟨"ibc1", []⟩]⟩
      ∧ connTableMatches envOpenOpen.srcConn.State envOpenOpen.dstConn.State = false := by
  decide

/-- C3 counterexample: a SendMsgs rejection (success=false) that carries a
non-nil error is not retried: with a retry budget of 3, the loop returns
the error after a single attempt, refuting the claim that every rejection
reported via success=false increments the failure counter and is retried
under the budget. -/
theorem c3_counterexample_rejection_with_error_aborts :
    CreateOpenConnections none (fun _ => envRejectErr) chainSrc chainDst 3 10 =
        ⟨.failure (.external 7), 1, chainSrc, chainDst⟩
      ∧ (envRejectErr.dstSendMsgs crossingHellosMsgs).success = false := by
  decide

/-- C5 counterexample: at the observed pair (TRYOPEN, OPEN) — a
ConnOpenConfirm-submitting transition — a rejected submission makes
ExecuteConnectionStep return terminal=false, refuting the claim that the
step returns terminal=true exactly when the pair is (TRYOPEN, OPEN) or
(OPEN, TRYOPEN). -/
theorem c5_counterexample_terminal_pair_rejected_not_last :
    ExecuteConnectionStep envConfirmReject chainSrc chainDst =
        .ret ⟨false, false, none, chainSrc, chainDst,
          [⟨"ibc1", [.MsgUpdateClient "clientA" hdrDst "addr0",
                     .MsgConnectionOpenConfirm "connAB" .OPEN 200 "addr0"]⟩]⟩
      ∧ envConfirmReject.srcConn.State = .TRYOPEN ∧ envConfirmReject.dstConn.State = .OPEN := by
  decide

/-- C6 counterexample: the proof-height argument is a Go uint64, so at
H = 2^64 - 1 the constructed message carries proof height 0, not H + 1:
the claim fails at this input. -/
theorem c6_counterexample_proof_height_wraps :
    Msg.proofHeightOf (peSrc.MsgRecvPacket peDst 42 1000 0 [1, 2] (uint64Mod - 1) "addr0") = some 0
      ∧ (0 : Nat) ≠ (uint64Mod - 1) + 1 := by
  decide

/-- C6 (amended): for every proof height H with H + 1 < 2^64 — every input
on which the uint64 increment does not wrap — each of the three
packet-relay message constructors places exactly H + 1 in the proof-height
field of the constructed message. -/
theorem c6_amended_proof_height_plus_one (pe dst : PathEnd)
    (sequence timeoutHeight timeoutStamp : Nat) (packetData ack : List Nat)
    (H : Nat) (signer : String) (hH : H + 1 < uint64Mod) :
    Msg.proofHeightOf (pe.MsgRecvPacket dst sequence timeoutHeight timeoutStamp packetData H signer)
        = some (H + 1)
      ∧ Msg.proofHeightOf (pe.MsgTimeout dst packetData sequence timeoutHeight timeoutStamp H signer)
        = some (H + 1)
      ∧ Msg.proofHeightOf (pe.MsgAck dst sequence timeoutHeight timeoutStamp ack packetData H signer)
        = some (H + 1) := by
  refine ⟨?_, ?_, ?_⟩ <;>
    simp [PathEnd.MsgRecvPacket, PathEnd.MsgTimeout, PathEnd.MsgAck, Msg.proofHeightOf,
      Nat.mod_eq_of_lt hH]

/-- C6 witness: the amended theorem applied at proof height 57. -/
theorem c6_witness :
    Msg.proofHeightOf (peSrc.MsgRecvPacket peDst 42 1000 0 [1, 2] 57 "addr0") = some 58
      ∧ Msg.proofHeightOf (peSrc.MsgTimeout peDst [1, 2] 42 1000 0 57 "addr0") = some 58
      ∧ Msg.proofHeightOf (peSrc.MsgAck peDst 42 1000 0 [9] [1, 2] 57 "addr0") = some 58 :=
  c6_amended_proof_height_plus_one peSrc peDst 42 1000 0 [1, 2] [9] 57 "addr0" (by decide)

/-- C8: each paired concurrent fetch is atomic: if either side fails,
GetIBCUpdateHeaders returns (nil, nil, err) — no usable header pair — and
QueryLatestHeights reports a non-nil error; and the result of a later
GetIBCUpdateHeaders call in a call sequence is a function of that call
only (the function keeps no state, so nothing fetched by an earlier,
failed call is reused). -/
theorem c8_paired_fetch_atomic (env : FetchEnv) :
    ((exceptIsOk env.srcIBCUpdateHeader = false ∨ exceptIsOk env.dstIBCUpdateHeader = false) →
      (GetIBCUpdateHeaders env).1 = none ∧ (GetIBCUpdateHeaders env).2.1 = none ∧
        (GetIBCUpdateHeaders env).2.2 ≠ none)
    ∧ ((exceptIsOk env.srcLatestHeight = false ∨ exceptIsOk env.dstLatestHeight = false) →
      (QueryLatestHeights env).2.2 ≠ none)
    ∧ (∀ envPrev : FetchEnv,
        (GetIBCUpdateHeadersCalls [envPrev, env]).get? 1 = some (GetIBCUpdateHeaders env)) := by
  refine ⟨?_, ?_, fun envPrev => rfl⟩
  · intro hOr
    rcases hs : env.srcIBCUpdateHeader with e | a <;> rcases hd : env.dstIBCUpdateHeader with f | b <;>
      simp_all [GetIBCUpdateHeaders, exceptIsOk]
  · intro hOr
    rcases hs : env.srcLatestHeight with e | a <;> rcases hd : env.dstLatestHeight with f | b <;>
      simp_all [QueryLatestHeights, exceptIsOk]

/-- C8 witness: the theorem applied to a fetch environment where the dst
side fails both paired fetches. -/
theorem c8_witness :
    ((GetIBCUpdateHeaders fetchDstFail).1 = none ∧ (GetIBCUpdateHeaders fetchDstFail).2.1 = none ∧
      (GetIBCUpdateHeaders fetchDstFail).2.2 ≠ none)
    ∧ (QueryLatestHeights fetchDstFail).2.2 ≠ none :=
  ⟨(c8_paired_fetch_atomic fetchDstFail).1 (Or.inr rfl),
   (c8_paired_fetch_atomic fetchDstFail).2.1 (Or.inr rfl)⟩

/-- C10: after a successful submission every branch of InitializeConnection
reads res.Logs[1]; if both SendMsgs oracles accept every bundle but return
fewer than two logs, every submitting branch panics (index out of range),
while results carrying at least two logs never panic. -/
theorem c10_logs_index_requires_two_logs :
    (∀ (env : StepEnv) (src dst : Chain) (sh dh : Header),
      env.connTryErr = none →
      (src.PathEnd.ConnectionID = "" ∨ dst.PathEnd.ConnectionID = "") →
      (∀ msgs, (env.srcSendMsgs msgs).success = true ∧ (env.srcSendMsgs msgs).res.Logs.length < 2) →
      (∀ msgs, (env.dstSendMsgs msgs).success = true ∧ (env.dstSendMsgs msgs).res.Logs.length < 2) →
      InitializeConnection env src dst sh dh = .panicked)
    ∧ (∀ (env : StepEnv) (src dst : Chain) (sh dh : Header),
      (∀ msgs, 2 ≤ (env.srcSendMsgs msgs).res.Logs.length) →
      (∀ msgs, 2 ≤ (env.dstSendMsgs msgs).res.Logs.length) →
      InitializeConnection env src dst sh dh ≠ .panicked) := by
  constructor
  · intro env src dst sh dh hct hbranch hsrc hdst
    unfold InitializeConnection
    by_cases hs : src.PathEnd.ConnectionID = "" <;> by_cases hd : dst.PathEnd.ConnectionID = ""
    · rw [if_pos ⟨hs, hd⟩]
      have h1 := hsrc [src.PathEnd.UpdateClient dh env.srcAddr,
                       src.PathEnd.ConnInit dst.PathEnd env.srcAddr]
      simp [h1.1, List.getElem?_eq_none (Nat.lt_succ_iff.mp h1.2)]
    · rw [if_neg (fun h => hd h.2), if_pos ⟨hs, hd⟩, hct]
      have h1 := hsrc [src.PathEnd.UpdateClient dh env.srcAddr,
                       src.PathEnd.ConnTry dst.PathEnd env.dstConn env.dstCsHeight env.srcAddr]
      simp [h1.1, List.getElem?_eq_none (Nat.lt_succ_iff.mp h1.2)]
    · rw [if_neg (fun h => hs h.1), if_neg (fun h => hs h.1), if_pos ⟨hs, hd⟩, hct]
      have h1 := hdst [dst.PathEnd.UpdateClient sh env.dstAddr,
                       dst.PathEnd.ConnTry src.PathEnd env.srcConn env.srcCsHeight env.dstAddr]
      simp [h1.1, List.getElem?_eq_none (Nat.lt_succ_iff.mp h1.2)]
    · rcases hbranch with h | h <;> contradiction
  · intro env src dst sh dh hsrc hdst hcon
    simp only [InitializeConnection] at hcon
    by_cases hs : src.PathEnd.ConnectionID = "" <;> by_cases hd : dst.PathEnd.ConnectionID = ""
    · rw [if_pos ⟨hs, hd⟩] at hcon
      have h2 : 1 < (env.srcSendMsgs [src.PathEnd.UpdateClient dh env.srcAddr,
          src.PathEnd.ConnInit dst.PathEnd env.srcAddr]).res.Logs.length := hsrc _
      cases hsucc : (env.srcSendMsgs [src.PathEnd.UpdateClient dh env.srcAddr,
          src.PathEnd.ConnInit dst.PathEnd env.srcAddr]).success
      · simp [hsucc] at hcon
      · rcases hlog : (env.srcSendMsgs [src.PathEnd.UpdateClient dh env.srcAddr,
            src.PathEnd.ConnInit dst.PathEnd env.srcAddr]).res.Logs.get? 1 with _ | log
        · rw [List.get?_eq_getElem?, List.getElem?_eq_getElem h2] at hlog
          simp at hlog
        · rw [hlog] at hcon
          rcases hp : env.parseConnectionIDFromEvents log.Events with e | cid <;>
            simp [hsucc, hp] at hcon
    · rw [if_neg (fun h => hd h.2), if_pos ⟨hs, hd⟩] at hcon
      rcases hct : env.connTryErr with _ | e <;> rw [hct] at hcon
      · have h2 : 1 < (env.srcSendMsgs [src.PathEnd.UpdateClient dh env.srcAddr,
            src.PathEnd.ConnTry dst.PathEnd env.dstConn env.dstCsHeight env.srcAddr]).res.Logs.length :=
          hsrc _
        cases hsucc : (env.srcSendMsgs [src.PathEnd.UpdateClient dh env.srcAddr,
            src.PathEnd.ConnTry dst.PathEnd env.dstConn env.dstCsHeight env.srcAddr]).success
        · simp [hsucc] at hcon
        · rcases hlog : (env.srcSendMsgs [src.PathEnd.UpdateClient dh env.srcAddr,
              src.PathEnd.ConnTry dst.PathEnd env.dstConn env.dstCsHeight env.srcAddr]).res.Logs.get? 1
            with _ | log
          · rw [List.get?_eq_getElem?, List.getElem?_eq_getElem h2] at hlog
            simp at hlog
          · rw [hlog] at hcon
            rcases hp : env.parseConnectionIDFromEvents log.Events with e | cid <;>
              simp [hsucc, hp] at hcon
      · simp at hcon
    · rw [if_neg (fun h => hs h.1), if_neg (fun h => hs h.1), if_pos ⟨hs, hd⟩] at hcon
      rcases hct : env.connTryErr with _ | e <;> rw [hct] at hcon
      · have h2 : 1 < (env.dstSendMsgs [dst.PathEnd.UpdateClient sh env.dstAddr,
            dst.PathEnd.ConnTry src.PathEnd env.srcConn env.srcCsHeight env.dstAddr]).res.Logs.length :=
          hdst _
        cases hsucc : (env.dstSendMsgs [dst.PathEnd.UpdateClient sh env.dstAddr,
            dst.PathEnd.ConnTry src.PathEnd env.srcConn env.srcCsHeight env.dstAddr]).success
        · simp [hsucc] at hcon
        · rcases hlog : (env.dstSendMsgs [dst.PathEnd.UpdateClient sh env.dstAddr,
              dst.PathEnd.ConnTry src.PathEnd env.srcConn env.srcCsHeight env.dstAddr]).res.Logs.get? 1
            with _ | log
          · rw [List.get?_eq_getElem?, List.getElem?_eq_getElem h2] at hlog
            simp at hlog
          · rw [hlog] at hcon
            rcases hp : env.parseConnectionIDFromEvents log.Events with e | cid <;>
              simp [hsucc, hp] at hcon
      · simp at hcon
    · rw [if_neg (fun h => hs h.1), if_neg (fun h => hs h.1), if_neg (fun h => hd h.2)] at hcon
      simp at hcon

/-- C10 witness: the theorem applied to an environment whose accepted
transactions carry a single log: the initialization of two fresh path ends
panics on the Logs[1] access. -/
theorem c10_witness :
    InitializeConnection envShortLogs chainSrcE chainDstE hdrSrc hdrDst = .panicked :=
  c10_logs_index_requires_two_logs.1 envShortLogs chainSrcE chainDstE hdrSrc hdrDst rfl
    (Or.inl rfl) (fun _ => ⟨rfl, one_lt_two⟩) (fun _ => ⟨rfl, one_lt_two⟩)

/-- C9: InitializeConnection mutates local state atomically: whenever it
returns false both chains come back unchanged, and whenever it returns
true its only mutation is the assignment of the ConnectionID field of a
PathEnd that was empty — the other chain is untouched — and the recorded
SendMsgs call reported success with the stored identifier parsed from the
second log of the transaction result. -/
theorem c9_initialize_connection_atomic
    (env : StepEnv) (src dst : Chain) (sh dh : Header) (r : InitResult)
    (hret : InitializeConnection env src dst sh dh = .ret r) :
    (r.ok = false → r.src' = src ∧ r.dst' = dst)
    ∧ (r.ok = true →
        r.err = none
        ∧ onlyConnIDAssignedB src r.src' = true
        ∧ onlyConnIDAssignedB dst r.dst' = true
        ∧ (r.src' = src ∨ r.dst' = dst)
        ∧ initSendParse env src r = true) := by
  simp only [InitializeConnection] at hret
  by_cases hs : src.PathEnd.ConnectionID = "" <;> by_cases hd : dst.PathEnd.ConnectionID = ""
  · rw [if_pos ⟨hs, hd⟩] at hret
    rcases hsucc : (env.srcSendMsgs [src.PathEnd.UpdateClient dh env.srcAddr,
        src.PathEnd.ConnInit dst.PathEnd env.srcAddr]).success with _ | _
    · rw [hsucc, Bool.not_false, if_pos rfl] at hret
      cases hret
      exact ⟨fun _ => ⟨rfl, rfl⟩, fun hok => Bool.noConfusion hok⟩
    · rw [hsucc, Bool.not_true, if_neg Bool.false_ne_true] at hret
      rcases hlog : (env.srcSendMsgs [src.PathEnd.UpdateClient dh env.srcAddr,
          src.PathEnd.ConnInit dst.PathEnd env.srcAddr]).res.Logs.get? 1 with _ | log
      · rw [hlog] at hret
        injection hret
      · rw [hlog] at hret
        simp only [] at hret
        rcases hp : env.parseConnectionIDFromEvents log.Events with e | cid <;> rw [hp] at hret <;>
          simp only [] at hret
        · cases hret
          exact ⟨fun _ => ⟨rfl, rfl⟩, fun hok => Bool.noConfusion hok⟩
        · cases hret
          refine ⟨fun hok => Bool.noConfusion hok, fun _ => ⟨rfl, ?_, ?_, Or.inr rfl, ?_⟩⟩
          · simp [onlyConnIDAssignedB, setConnectionID, hs]
          · simp [onlyConnIDAssignedB]
          · rw [List.get?_eq_getElem?] at hlog
            simp [initSendParse, hs, hsucc, hlog, hp, setConnectionID]
  · rw [if_neg (fun h => hd h.2), if_pos ⟨hs, hd⟩] at hret
    rcases hct : env.connTryErr with _ | e <;> rw [hct] at hret
    · simp only [] at hret
      rcases hsucc : (env.srcSendMsgs [src.PathEnd.UpdateClient dh env.srcAddr,
          src.PathEnd.ConnTry dst.PathEnd env.dstConn env.dstCsHeight env.srcAddr]).success
        with _ | _
      · rw [hsucc, Bool.not_false, if_pos rfl] at hret
        cases hret
        exact ⟨fun _ => ⟨rfl, rfl⟩, fun hok => Bool.noConfusion hok⟩
      · rw [hsucc, Bool.not_true, if_neg Bool.false_ne_true] at hret
        rcases hlog : (env.srcSendMsgs [src.PathEnd.UpdateClient dh env.srcAddr,
            src.PathEnd.ConnTry dst.PathEnd env.dstConn env.dstCsHeight env.srcAddr]).res.Logs.get? 1
          with _ | log
        · rw [hlog] at hret
          injection hret
        · rw [hlog] at hret
          simp only [] at hret
          rcases hp : env.parseConnectionIDFromEvents log.Events with e | cid <;> rw [hp] at hret <;>
            simp only [] at hret
          · cases hret
            exact ⟨fun _ => ⟨rfl, rfl⟩, fun hok => Bool.noConfusion hok⟩
          · cases hret
            refine ⟨fun hok => Bool.noConfusion hok, fun _ => ⟨rfl, ?_, ?_, Or.inr rfl, ?_⟩⟩
            · simp [onlyConnIDAssignedB, setConnectionID, hs]
            · simp [onlyConnIDAssignedB]
            · rw [List.get?_eq_getElem?] at hlog
              simp [initSendParse, hs, hsucc, hlog, hp, setConnectionID]
    · simp only [] at hret
      cases hret
      exact ⟨fun _ => ⟨rfl, rfl⟩, fun hok => Bool.noConfusion hok⟩
  · rw [if_neg (fun h => hs h.1), if_neg (fun h => hs h.1), if_pos ⟨hs, hd⟩] at hret
    rcases hct : env.connTryErr with _ | e <;> rw [hct] at hret
    · simp only [] at hret
      rcases hsucc : (env.dstSendMsgs [dst.PathEnd.UpdateClient sh env.dstAddr,
          dst.PathEnd.ConnTry src.PathEnd env.srcConn env.srcCsHeight env.dstAddr]).success
        with _ | _
      · rw [hsucc, Bool.not_false, if_pos rfl] at hret
        cases hret
        exact ⟨fun _ => ⟨rfl, rfl⟩, fun hok => Bool.noConfusion hok⟩
      · rw [hsucc, Bool.not_true, if_neg Bool.false_ne_true] at hret
        rcases hlog : (env.dstSendMsgs [dst.PathEnd.UpdateClient sh env.dstAddr,
            dst.PathEnd.ConnTry src.PathEnd env.srcConn env.srcCsHeight env.dstAddr]).res.Logs.get? 1
          with _ | log
        · rw [hlog] at hret
          injection hret
        · rw [hlog] at hret
          simp only [] at hret
          rcases hp : env.parseConnectionIDFromEvents log.Events with e | cid <;> rw [hp] at hret <;>
            simp only [] at hret
          · cases hret
            exact ⟨fun _ => ⟨rfl, rfl⟩, fun hok => Bool.noConfusion hok⟩
          · cases hret
            refine ⟨fun hok => Bool.noConfusion hok, fun _ => ⟨rfl, ?_, ?_, Or.inl rfl, ?_⟩⟩
            · simp [onlyConnIDAssignedB]
            · simp [onlyConnIDAssignedB, setConnectionID, hd]
            · rw [List.get?_eq_getElem?] at hlog
              simp [initSendParse, hs, hsucc, hlog, hp, setConnectionID]
    · simp only [] at hret
      cases hret
      exact ⟨fun _ => ⟨rfl, rfl⟩, fun hok => Bool.noConfusion hok⟩
  · rw [if_neg (fun h => hs h.1), if_neg (fun h => hs h.1), if_neg (fun h => hd h.2)] at hret
    cases hret
    exact ⟨fun _ => ⟨rfl, rfl⟩, fun hok => Bool.noConfusion hok⟩

/-- C9 witness: the theorem applied to a fresh path (both connection
identifiers empty) whose OpenInit submission succeeds and parses to the
identifier connNew. -/
theorem c9_witness :
    rInitSample.err = none
    ∧ onlyConnIDAssignedB chainSrcE rInitSample.src' = true
    ∧ onlyConnIDAssignedB chainDstE rInitSample.dst' = true
    ∧ (rInitSample.src' = chainSrcE ∨ rInitSample.dst' = chainDstE)
    ∧ initSendParse baseEnv chainSrcE rInitSample = true :=
  (c9_initialize_connection_atomic baseEnv chainSrcE chainDstE hdrSrc hdrDst rInitSample
    (by decide)).2 rfl

/-- Helper: the submission transcript of InitializeConnection is empty or
one of the three branch bundles. -/
theorem initializeConnection_submissions
    (env : StepEnv) (src dst : Chain) (sh dh : Header) (r : InitResult)
    (hret : InitializeConnection env src dst sh dh = .ret r) :
    r.submissions = []
    ∨ r.submissions = [⟨src.ChainID, [src.PathEnd.UpdateClient dh env.srcAddr,
        src.PathEnd.ConnInit dst.PathEnd env.srcAddr]⟩]
    ∨ r.submissions = [⟨src.ChainID, [src.PathEnd.UpdateClient dh env.srcAddr,
        src.PathEnd.ConnTry dst.PathEnd env.dstConn env.dstCsHeight env.srcAddr]⟩]
    ∨ r.submissions = [⟨dst.ChainID, [dst.PathEnd.UpdateClient sh env.dstAddr,
        dst.PathEnd.ConnTry src.PathEnd env.srcConn env.srcCsHeight env.dstAddr]⟩] := by
  simp only [InitializeConnection] at hret
  by_cases hs : src.PathEnd.ConnectionID = "" <;> by_cases hd : dst.PathEnd.ConnectionID = ""
  · rw [if_pos ⟨hs, hd⟩] at hret
    rcases hsucc : (env.srcSendMsgs [src.PathEnd.UpdateClient dh env.srcAddr,
        src.PathEnd.ConnInit dst.PathEnd env.srcAddr]).success with _ | _
    · rw [hsucc, Bool.not_false, if_pos rfl] at hret
      cases hret
      exact Or.inr (Or.inl rfl)
    · rw [hsucc, Bool.not_true, if_neg Bool.false_ne_true] at hret
      rcases hlog : (env.srcSendMsgs [src.PathEnd.UpdateClient dh env.srcAddr,
          src.PathEnd.ConnInit dst.PathEnd env.srcAddr]).res.Logs.get? 1 with _ | log
      · rw [hlog] at hret
        injection hret
      · rw [hlog] at hret
        simp only [] at hret
        rcases hp : env.parseConnectionIDFromEvents log.Events with e | cid <;> rw [hp] at hret <;>
          simp only [] at hret <;> cases hret <;> exact Or.inr (Or.inl rfl)
  · rw [if_neg (fun h => hd h.2), if_pos ⟨hs, hd⟩] at hret
    rcases hct : env.connTryErr with _ | e <;> rw [hct] at hret
    · simp only [] at hret
      rcases hsucc : (env.srcSendMsgs [src.PathEnd.UpdateClient dh env.srcAddr,
          src.PathEnd.ConnTry dst.PathEnd env.dstConn env.dstCsHeight env.srcAddr]).success
        with _ | _
      · rw [hsucc, Bool.not_false, if_pos rfl] at hret
        cases hret
        exact Or.inr (Or.inr (Or.inl rfl))
      · rw [hsucc, Bool.not_true, if_neg Bool.false_ne_true] at hret
        rcases hlog : (env.srcSendMsgs [src.PathEnd.UpdateClient dh env.srcAddr,
            src.PathEnd.ConnTry dst.PathEnd env.dstConn env.dstCsHeight env.srcAddr]).res.Logs.get? 1
          with _ | log
        · rw [hlog] at hret
          injection hret
        · rw [hlog] at hret
          simp only [] at hret
          rcases hp : env.parseConnectionIDFromEvents log.Events with e | cid <;> rw [hp] at hret <;>
            simp only [] at hret <;> cases hret <;> exact Or.inr (Or.inr (Or.inl rfl))
    · simp only [] at hret
      cases hret
      exact Or.inl rfl
  · rw [if_neg (fun h => hs h.1), if_neg (fun h => hs h.1), if_pos ⟨hs, hd⟩] at hret
    rcases hct : env.connTryErr with _ | e <;> rw [hct] at hret
    · simp only [] at hret
      rcases hsucc : (env.dstSendMsgs [dst.PathEnd.UpdateClient sh env.dstAddr,
          dst.PathEnd.ConnTry src.PathEnd env.srcConn env.srcCsHeight env.dstAddr]).success
        with _ | _
      · rw [hsucc, Bool.not_false, if_pos rfl] at hret
        cases hret
        exact Or.inr (Or.inr (Or.inr rfl))
      · rw [hsucc, Bool.not_true, if_neg Bool.false_ne_true] at hret
        rcases hlog : (env.dstSendMsgs [dst.PathEnd.UpdateClient sh env.dstAddr,
            dst.PathEnd.ConnTry src.PathEnd env.srcConn env.srcCsHeight env.dstAddr]).res.Logs.get? 1
          with _ | log
        · rw [hlog] at hret
          injection hret
        · rw [hlog] at hret
          simp only [] at hret
          rcases hp : env.parseConnectionIDFromEvents log.Events with e | cid <;> rw [hp] at hret <;>
            simp only [] at hret <;> cases hret <;> exact Or.inr (Or.inr (Or.inr rfl))
    · simp only [] at hret
      cases hret
      exact Or.inl rfl
  · rw [if_neg (fun h => hs h.1), if_neg (fun h => hs h.1), if_neg (fun h => hd h.2)] at hret
    cases hret
    exact Or.inl rfl

/-- Helper: every bundle the switch of ExecuteConnectionStep produces is of
the required [UpdateClient, handshake] shape (or empty for an unmatched
state pair). -/
theorem connectionStepMsgs_shape (env : StepEnv) (src dst : Chain) (msgs : List Msg) (last : Bool)
    (h : connectionStepMsgs env src dst = .ok (msgs, last)) :
    bundleShapedB src.PathEnd.ClientID dst.PathEnd.ClientID env.srcUpdateHeader
      env.dstUpdateHeader env.srcAddr env.dstAddr ⟨dst.ChainID, msgs⟩ = true := by
  unfold connectionStepMsgs at h
  split at h
  · rcases hct : env.connTryErr with _ | e <;> rw [hct] at h
    · simp only [] at h
      cases h
      simp [bundleShapedB, Msg.isHandshake, PathEnd.UpdateClient, PathEnd.ConnTry]
    · injection h
  · split at h
    · rcases hak : env.connAckErr with _ | e <;> rw [hak] at h
      · simp only [] at h
        cases h
        simp [bundleShapedB, Msg.isHandshake, PathEnd.UpdateClient, PathEnd.ConnAck]
      · injection h
    · split at h
      · rcases hak : env.connAckErr with _ | e <;> rw [hak] at h
        · simp only [] at h
          cases h
          simp [bundleShapedB, Msg.isHandshake, PathEnd.UpdateClient, PathEnd.ConnAck]
        · injection h
      · split at h
        · cases h
          simp [bundleShapedB, Msg.isHandshake, PathEnd.UpdateClient, PathEnd.ConnConfirm]
        · split at h
          · cases h
            simp [bundleShapedB, Msg.isHandshake, PathEnd.UpdateClient, PathEnd.ConnConfirm]
          · cases h
            simp [bundleShapedB]

/-- C7: every SendMsgs bundle submitted by ExecuteConnectionStep or
InitializeConnection that carries any message at all is exactly a pair
[UpdateClient, handshake message], where the UpdateClient is on the client
of the submitting side and carries the counterparty header synchronized at
the start of that same step. -/
theorem c7_bundles_update_client_first :
    (∀ (env : StepEnv) (src dst : Chain),
      ∀ sub ∈ submissionsOfStep (ExecuteConnectionStep env src dst),
        bundleShapedB src.PathEnd.ClientID dst.PathEnd.ClientID env.srcUpdateHeader
          env.dstUpdateHeader env.srcAddr env.dstAddr sub = true)
    ∧ (∀ (env : StepEnv) (src dst : Chain) (sh dh : Header),
      ∀ sub ∈ submissionsOfInit (InitializeConnection env src dst sh dh),
        bundleShapedB src.PathEnd.ClientID dst.PathEnd.ClientID sh dh
          env.srcAddr env.dstAddr sub = true) := by
  have hinit : ∀ (env : StepEnv) (src dst : Chain) (sh dh : Header),
      ∀ sub ∈ submissionsOfInit (InitializeConnection env src dst sh dh),
        bundleShapedB src.PathEnd.ClientID dst.PathEnd.ClientID sh dh
          env.srcAddr env.dstAddr sub = true := by
    intro env src dst sh dh sub hsub
    rcases hres : InitializeConnection env src dst sh dh with r | _ <;> rw [hres] at hsub
    · simp only [submissionsOfInit] at hsub
      rcases initializeConnection_submissions env src dst sh dh r hres with h | h | h | h <;>
        rw [h] at hsub <;> simp at hsub <;> subst hsub <;>
        simp [bundleShapedB, Msg.isHandshake, PathEnd.UpdateClient, PathEnd.ConnInit,
          PathEnd.ConnTry]
    · simp [submissionsOfInit] at hsub
  refine ⟨?_, hinit⟩
  intro env src dst sub hsub
  simp only [ExecuteConnectionStep] at hsub
  rcases h3 : env.newSyncHeadersErr with _ | e <;> rw [h3] at hsub
  · rcases h4 : env.getTrustedHeadersErr with _ | e <;> rw [h4] at hsub
    · by_cases hids : src.PathEnd.ConnectionID = "" ∨ dst.PathEnd.ConnectionID = ""
      · rw [if_pos hids] at hsub
        rcases hres : InitializeConnection env src dst env.srcUpdateHeader env.dstUpdateHeader
          with r | _ <;> rw [hres] at hsub <;> simp only [] at hsub
        · rcases herr : r.err with _ | e <;> rw [herr] at hsub <;>
            simp only [submissionsOfStep] at hsub <;>
            ( rcases initializeConnection_submissions env src dst env.srcUpdateHeader
                env.dstUpdateHeader r hres with h | h | h | h <;>
              rw [h] at hsub <;> simp at hsub <;> subst hsub <;>
              simp [bundleShapedB, Msg.isHandshake, PathEnd.UpdateClient, PathEnd.ConnInit,
                PathEnd.ConnTry] )
        · simp [submissionsOfStep] at hsub
      · rw [if_neg hids] at hsub
        rcases h5 : env.queryConnectionPairErr with _ | e <;> rw [h5] at hsub
        · rcases hmsgs : connectionStepMsgs env src dst with e | p <;> rw [hmsgs] at hsub <;>
            simp only [] at hsub
          · simp [submissionsOfStep] at hsub
          · obtain ⟨msgs, last⟩ := p
            have hshape := connectionStepMsgs_shape env src dst msgs last hmsgs
            rcases hsucc : (env.dstSendMsgs msgs).success with _ | _
            · rw [hsucc, Bool.not_false, if_pos rfl] at hsub
              simp only [submissionsOfStep] at hsub
              simp at hsub
              subst hsub
              exact hshape
            · rw [hsucc, Bool.not_true, if_neg Bool.false_ne_true] at hsub
              simp only [submissionsOfStep] at hsub
              simp at hsub
              subst hsub
              exact hshape
        · simp [submissionsOfStep] at hsub
    · simp [submissionsOfStep] at hsub
  · simp [submissionsOfStep] at hsub

/-- C7 witness: the theorem applied to the crossing-hellos submission of the
sample environment. -/
theorem c7_witness :
    bundleShapedB chainSrc.PathEnd.ClientID chainDst.PathEnd.ClientID baseEnv.srcUpdateHeader
      baseEnv.dstUpdateHeader baseEnv.srcAddr baseEnv.dstAddr rejectSubmission = true :=
  c7_bundles_update_client_first.1 baseEnv chainSrc chainDst rejectSubmission (by decide)

/-- Helper: when neither message constructor fails, the switch of
ExecuteConnectionStep always produces a bundle. -/
theorem connectionStepMsgs_ok (env : StepEnv) (src dst : Chain)
    (h6 : env.connTryErr = none) (h7 : env.connAckErr = none) :
    ∃ msgs last, connectionStepMsgs env src dst = .ok (msgs, last) := by
  unfold connectionStepMsgs
  split
  · rw [h6]; exact ⟨_, _, rfl⟩
  · split
    · rw [h7]; exact ⟨_, _, rfl⟩
    · split
      · rw [h7]; exact ⟨_, _, rfl⟩
      · split
        · exact ⟨_, _, rfl⟩
        · split
          · exact ⟨_, _, rfl⟩
          · exact ⟨_, _, rfl⟩

/-- Helper: the `last` flag the switch computes is true exactly on the two
ConnOpenConfirm rows, (TRYOPEN, OPEN) and (OPEN, TRYOPEN). -/
theorem connectionStepMsgs_last (env : StepEnv) (src dst : Chain) (msgs : List Msg) (last : Bool)
    (h : connectionStepMsgs env src dst = .ok (msgs, last)) :
    last = true ↔
      ((env.srcConn.State = .TRYOPEN ∧ env.dstConn.State = .OPEN) ∨
       (env.srcConn.State = .OPEN ∧ env.dstConn.State = .TRYOPEN)) := by
  unfold connectionStepMsgs at h
  split at h
  · next hcond =>
      rcases hct : env.connTryErr with _ | e <;> rw [hct] at h
      · simp only [] at h
        cases h
        simp [hcond.1, hcond.2]
      · injection h
  · next hcond =>
      split at h
      · next hcond2 =>
          rcases hak : env.connAckErr with _ | e <;> rw [hak] at h
          · simp only [] at h
            cases h
            rcases hcond2.1 with hsrc2 | hsrc2 <;> simp [hsrc2, hcond2.2]
          · injection h
      · split at h
        · next hcond3 =>
            rcases hak : env.connAckErr with _ | e <;> rw [hak] at h
            · simp only [] at h
              cases h
              simp [hcond3.1, hcond3.2]
            · injection h
        · split at h
          · next hcond4 =>
              cases h
              simp [hcond4.1, hcond4.2]
          · split at h
            · next hcond5 =>
                cases h
                simp [hcond5.1, hcond5.2]
            · next hcond4 hcond5 =>
                cases h
                constructor
                · intro hfalse
                  exact Bool.noConfusion hfalse
                · intro hor
                  rcases hor with hp | hp
                  · exact absurd hp hcond4
                  · exact absurd hp hcond5

/-- Helper: on the query path (both identifiers set, no failures before
submission), the returned last flag is the computed one only when SendMsgs
succeeds, and success mirrors SendMsgs. -/
theorem executeConnectionStep_send (env : StepEnv) (src dst : Chain) (msgs : List Msg)
    (last : Bool)
    (h1 : src.PathEnd.ConnectionID ≠ "") (h2 : dst.PathEnd.ConnectionID ≠ "")
    (h3 : env.newSyncHeadersErr = none) (h4 : env.getTrustedHeadersErr = none)
    (h5 : env.queryConnectionPairErr = none)
    (hmsgs : connectionStepMsgs env src dst = .ok (msgs, last)) :
    stepLastOf (ExecuteConnectionStep env src dst) = ((env.dstSendMsgs msgs).success && last)
    ∧ stepSuccessOf (ExecuteConnectionStep env src dst) = (env.dstSendMsgs msgs).success := by
  simp only [ExecuteConnectionStep]
  rw [h3]
  rw [h4]
  rw [if_neg (fun h => h.elim (fun ha => h1 ha) (fun hb => h2 hb))]
  rw [h5]
  rw [hmsgs]
  simp only []
  rcases hsend : (env.dstSendMsgs msgs).success with _ | _ <;>
    simp [stepLastOf, stepSuccessOf]

/-- C5 (amended): with both identifiers set and no query or constructor
failure, the step returns terminal=true exactly when the observed pair is
(TRYOPEN, OPEN) or (OPEN, TRYOPEN) and the submission succeeded; in the
identifier-initialization path the step always returns terminal=false. -/
theorem c5_amended_terminal_iff (env : StepEnv) (src dst : Chain)
    (h3 : env.newSyncHeadersErr = none) (h4 : env.getTrustedHeadersErr = none)
    (h5 : env.queryConnectionPairErr = none)
    (h6 : env.connTryErr = none) (h7 : env.connAckErr = none) :
    ((src.PathEnd.ConnectionID ≠ "" ∧ dst.PathEnd.ConnectionID ≠ "") →
      (stepLastOf (ExecuteConnectionStep env src dst) = true ↔
        (((env.srcConn.State = .TRYOPEN ∧ env.dstConn.State = .OPEN) ∨
          (env.srcConn.State = .OPEN ∧ env.dstConn.State = .TRYOPEN))
         ∧ stepSuccessOf (ExecuteConnectionStep env src dst) = true)))
    ∧ ((src.PathEnd.ConnectionID = "" ∨ dst.PathEnd.ConnectionID = "") →
      stepLastOf (ExecuteConnectionStep env src dst) = false) := by
  constructor
  · intro hids
    obtain ⟨msgs, last, hmsgs⟩ := connectionStepMsgs_ok env src dst h6 h7
    obtain ⟨hL, hS⟩ := executeConnectionStep_send env src dst msgs last hids.1 hids.2 h3 h4 h5 hmsgs
    rw [hL, hS, Bool.and_eq_true, ← connectionStepMsgs_last env src dst msgs last hmsgs]
    exact and_comm
  · intro hempty
    simp only [ExecuteConnectionStep]
    rw [h3]
    rw [h4]
    rw [if_pos hempty]
    rcases hres : InitializeConnection env src dst env.srcUpdateHeader env.dstUpdateHeader
      with r | _
    · rcases herr : r.err with _ | e <;> simp [stepLastOf, herr]
    · simp [stepLastOf]

/-- C5 witness: the amended theorem applied at the pair (TRYOPEN, OPEN) with
an accepted submission: the step is terminal. -/
theorem c5_witness :
    stepLastOf (ExecuteConnectionStep envConfirmOk chainSrc chainDst) = true :=
  ((c5_amended_terminal_iff envConfirmOk chainSrc chainDst rfl rfl rfl rfl rfl).1
    (by decide)).mpr ⟨Or.inl ⟨rfl, rfl⟩, by decide⟩

/-- Helper: when the observed pair matches no row of the table, the switch
falls through with an empty bundle and last=false. -/
theorem connectionStepMsgs_unmatched (env : StepEnv) (src dst : Chain)
    (h6 : connTableMatches env.srcConn.State env.dstConn.State = false) :
    connectionStepMsgs env src dst = .ok ([], false) := by
  simp only [connTableMatches, Bool.or_eq_false_iff, decide_eq_false_iff_not] at h6
  obtain ⟨⟨⟨⟨n1, n2⟩, n3⟩, n4⟩, n5⟩ := h6
  unfold connectionStepMsgs
  rw [if_neg n1, if_neg n2, if_neg n3, if_neg n4, if_neg n5]

/-- C2 (amended): an observed pair matching no decision-table row is not
reported as an error: ExecuteConnectionStep hands an empty message list to
SendMsgs on dst and returns whatever that submission reports; only
InitializeConnection invoked with both PathEnd connection identifiers
already set returns an error (connection ends already created) rather than
retrying. -/
theorem c2_amended_unmatched_and_init_error (env : StepEnv) (src dst : Chain)
    (h1 : src.PathEnd.ConnectionID ≠ "") (h2 : dst.PathEnd.ConnectionID ≠ "")
    (h3 : env.newSyncHeadersErr = none) (h4 : env.getTrustedHeadersErr = none)
    (h5 : env.queryConnectionPairErr = none)
    (h6 : connTableMatches env.srcConn.State env.dstConn.State = false) :
    ExecuteConnectionStep env src dst =
      .ret ⟨(env.dstSendMsgs []).success, false,
        if (env.dstSendMsgs []).success = true then none else (env.dstSendMsgs []).err,
        src, dst, [⟨dst.ChainID, []⟩]⟩
    ∧ InitializeConnection env src dst env.srcUpdateHeader env.dstUpdateHeader =
      .ret ⟨false, some .connectionEndsAlreadyCreated, src, dst, []⟩ := by
  constructor
  · simp only [ExecuteConnectionStep]
    rw [h3]
    rw [h4]
    rw [if_neg (fun h => h.elim (fun ha => h1 ha) (fun hb => h2 hb))]
    rw [h5]
    rw [connectionStepMsgs_unmatched env src dst h6]
    simp only []
    rcases hsend : (env.dstSendMsgs []).success with _ | _ <;> simp
  · simp only [InitializeConnection]
    rw [if_neg (fun h => h1 h.1), if_neg (fun h => h1 h.1), if_neg (fun h => h2 h.2)]

/-- C2 witness: the amended theorem applied at the observed pair
(OPEN, OPEN). -/
theorem c2_witness :
    ExecuteConnectionStep envOpenOpen chainSrc chainDst =
      .ret ⟨(envOpenOpen.dstSendMsgs []).success, false,
        if (envOpenOpen.dstSendMsgs []).success = true then none
        else (envOpenOpen.dstSendMsgs []).err,
        chainSrc, chainDst, [⟨chainDst.ChainID, []⟩]⟩
    ∧ InitializeConnection envOpenOpen chainSrc chainDst envOpenOpen.srcUpdateHeader
        envOpenOpen.dstUpdateHeader =
      .ret ⟨false, some .connectionEndsAlreadyCreated, chainSrc, chainDst, []⟩ :=
  c2_amended_unmatched_and_init_error envOpenOpen chainSrc chainDst (by decide) (by decide)
    rfl rfl rfl (by decide)

/-- C3 (amended): the loop classifies step outcomes by the error value, not
by the success flag: any non-nil error returned by ExecuteConnectionStep —
including one attached to a SendMsgs rejection — aborts the loop
immediately after that attempt without touching the failure counter, while
a rejection reported as success=false with a nil error increments the
counter and is retried while the budget allows. -/
theorem c3_amended_error_aborts_nil_error_retries :
    (∀ (envs : Nat → StepEnv) (maxRetries : Nat) (src dst : Chain)
        (failed attempts fuel : Nat) (r : StepResult) (e : GoErr),
      ExecuteConnectionStep (envs attempts) src dst = .ret r → r.err = some e →
      CreateOpenConnectionsLoop envs maxRetries src dst failed attempts (fuel + 1) =
        ⟨.failure e, attempts + 1, r.src', r.dst'⟩)
    ∧ (∀ (envs : Nat → StepEnv) (maxRetries : Nat) (src dst : Chain)
        (failed attempts fuel : Nat) (r : StepResult),
      ExecuteConnectionStep (envs attempts) src dst = .ret r → r.err = none →
      r.success = false → failed + 1 < uint64Mod → failed + 1 ≤ maxRetries →
      CreateOpenConnectionsLoop envs maxRetries src dst failed attempts (fuel + 1) =
        CreateOpenConnectionsLoop envs maxRetries r.src' r.dst' (failed + 1) (attempts + 1) fuel) := by
  constructor
  · intro envs maxRetries src dst failed attempts fuel r e hstep herr
    simp only [CreateOpenConnectionsLoop]
    rw [hstep]
    simp only []
    rw [herr]
  · intro envs maxRetries src dst failed attempts fuel r hstep herr hsucc hlt hle
    simp only [CreateOpenConnectionsLoop]
    rw [hstep]
    simp only []
    rw [herr]
    simp only []
    rw [hsucc]
    simp only [Bool.false_and]
    rw [if_neg Bool.false_ne_true, if_neg Bool.false_ne_true]
    rw [Nat.mod_eq_of_lt hlt]
    rw [if_neg (by omega : ¬failed + 1 > maxRetries)]

/-- C3 witness: the amended theorem applied to a rejection with a nil
error: the loop continues with the counter incremented to one. -/
theorem c3_witness :
    CreateOpenConnectionsLoop (fun _ => envReject) 3 chainSrc chainDst 0 0 6 =
      CreateOpenConnectionsLoop (fun _ => envReject) 3 chainSrc chainDst 1 1 5 :=
  c3_amended_error_aborts_nil_error_retries.2 (fun _ => envReject) 3 chainSrc chainDst 0 0 5
    ⟨false, false, none, chainSrc, chainDst, [rejectSubmission]⟩
    (by decide) rfl rfl (by decide) (by decide)

/-- Helper: with every step failing with a nil error on unchanged chains,
the loop consumes the budget one failure per tick and then aborts naming
both path ends. -/
theorem createOpenConnectionsLoop_allfail
    (envs : Nat → StepEnv) (src dst : Chain) (maxRetries : Nat)
    (hM : maxRetries + 1 < uint64Mod)
    (hstep : ∀ i, ∃ subs, ExecuteConnectionStep (envs i) src dst =
      .ret ⟨false, false, none, src, dst, subs⟩) :
    ∀ fuel failed attempts, failed ≤ maxRetries → maxRetries + 1 - failed ≤ fuel →
      CreateOpenConnectionsLoop envs maxRetries src dst failed attempts fuel =
        ⟨.failure (.connectionFailed src.ChainID src.PathEnd.ClientID src.PathEnd.ConnectionID
            dst.ChainID dst.PathEnd.ClientID dst.PathEnd.ConnectionID),
          attempts + (maxRetries + 1 - failed), src, dst⟩ := by
  intro fuel
  induction fuel with
  | zero => intro failed attempts h1 h2; omega
  | succ fuel ih =>
    intro failed attempts h1 h2
    obtain ⟨subs, hs⟩ := hstep attempts
    simp only [CreateOpenConnectionsLoop]
    rw [hs]
    simp only [Bool.false_and]
    rw [if_neg Bool.false_ne_true, if_neg Bool.false_ne_true]
    rw [Nat.mod_eq_of_lt (by omega)]
    by_cases hgt : failed + 1 > maxRetries
    · rw [if_pos hgt]
      have h3 : maxRetries + 1 - failed = 1 := by omega
      rw [h3]
    · rw [if_neg hgt]
      rw [ih (failed + 1) (attempts + 1) (by omega) (by omega)]
      have h3 : attempts + 1 + (maxRetries + 1 - (failed + 1)) =
          attempts + (maxRetries + 1 - failed) := by omega
      rw [h3]

/-- Helper: with the retry budget at the maximum uint64 value, the uint64
failure counter can never exceed it (it wraps instead), so the loop never
reaches the budget-exhaustion return: it is still running after any amount
of fuel. -/
theorem createOpenConnectionsLoop_maxuint_spins
    (envs : Nat → StepEnv) (src dst : Chain)
    (hstep : ∀ i, ∃ subs, ExecuteConnectionStep (envs i) src dst =
      .ret ⟨false, false, none, src, dst, subs⟩) :
    ∀ fuel failed attempts,
      CreateOpenConnectionsLoop envs (uint64Mod - 1) src dst failed attempts fuel =
        ⟨.running, attempts + fuel, src, dst⟩ := by
  intro fuel
  induction fuel with
  | zero => intro failed attempts; rfl
  | succ fuel ih =>
    intro failed attempts
    obtain ⟨subs, hs⟩ := hstep attempts
    simp only [CreateOpenConnectionsLoop]
    rw [hs]
    simp only [Bool.false_and]
    rw [if_neg Bool.false_ne_true, if_neg Bool.false_ne_true]
    have hm : (failed + 1) % uint64Mod < uint64Mod := Nat.mod_lt _ (by decide)
    generalize hgen : (failed + 1) % uint64Mod = k
    rw [hgen] at hm
    rw [if_neg (by omega : ¬k > uint64Mod - 1)]
    rw [ih k (attempts + 1)]
    have h3 : attempts + 1 + fuel = attempts + (fuel + 1) := by omega
    rw [h3]

/-- Helper: the always failing, nil-error step outcome of the sample
rejection environment. -/
theorem envReject_step :
    ExecuteConnectionStep envReject chainSrc chainDst =
      .ret ⟨false, false, none, chainSrc, chainDst, [rejectSubmission]⟩ := by
  decide

/-- C4 counterexample: maxRetries is a Go uint64 and so is the failure
counter; at maxRetries = 2^64 - 1 the incremented counter wraps instead of
exceeding the budget, so with every step failing (success=false, nil
error) the loop is still running after maxRetries + 1 = 2^64 attempts and
never returns the budget-exhaustion error the claim promises. -/
theorem c4_counterexample_max_budget_never_exhausts :
    CreateOpenConnections none (fun _ => envReject) chainSrc chainDst (uint64Mod - 1) uint64Mod =
      ⟨.running, uint64Mod, chainSrc, chainDst⟩
    ∧ LoopOut.running ≠ LoopOut.failure (.connectionFailed "ibc0" "clientA" "connAB"
        "ibc1" "clientB" "connBA") := by
  constructor
  · show CreateOpenConnectionsLoop (fun _ => envReject) (uint64Mod - 1) chainSrc chainDst
      0 0 uint64Mod = _
    rw [createOpenConnectionsLoop_maxuint_spins (fun _ => envReject) chainSrc chainDst
      (fun _ => ⟨[rejectSubmission], envReject_step⟩) uint64Mod 0 0]
    rw [Nat.zero_add]
  · decide

/-- C4 (amended): for every retry budget with maxRetries + 1 < 2^64, if
every invocation of ExecuteConnectionStep returns success=false with a nil
error (leaving the chains unchanged), CreateOpenConnections performs
exactly maxRetries + 1 attempts and returns the budget-exhaustion error
naming both chain, client and connection identifiers; and after any
successful non-terminal step the loop continues with the
consecutive-failure counter reset to zero. -/
theorem c4_amended_budget_and_reset :
    (∀ (envs : Nat → StepEnv) (src dst : Chain) (maxRetries fuel : Nat),
      maxRetries + 1 < uint64Mod → maxRetries + 1 ≤ fuel →
      (∀ i, ∃ subs, ExecuteConnectionStep (envs i) src dst =
        .ret ⟨false, false, none, src, dst, subs⟩) →
      CreateOpenConnections none envs src dst maxRetries fuel =
        ⟨.failure (.connectionFailed src.ChainID src.PathEnd.ClientID src.PathEnd.ConnectionID
            dst.ChainID dst.PathEnd.ClientID dst.PathEnd.ConnectionID),
          maxRetries + 1, src, dst⟩)
    ∧ (∀ (envs : Nat → StepEnv) (maxRetries : Nat) (src dst : Chain)
        (failed attempts fuel : Nat) (r : StepResult),
      ExecuteConnectionStep (envs attempts) src dst = .ret r → r.err = none →
      r.success = true → r.last = false →
      CreateOpenConnectionsLoop envs maxRetries src dst failed attempts (fuel + 1) =
        CreateOpenConnectionsLoop envs maxRetries r.src' r.dst' 0 (attempts + 1) fuel) := by
  constructor
  · intro envs src dst maxRetries fuel hM hfuel hstep
    show CreateOpenConnectionsLoop envs maxRetries src dst 0 0 fuel = _
    rw [createOpenConnectionsLoop_allfail envs src dst maxRetries hM hstep fuel 0 0
      (Nat.zero_le _) (by omega)]
    rw [Nat.zero_add, Nat.sub_zero]
  · intro envs maxRetries src dst failed attempts fuel r hstep herr hsucc hlast
    simp only [CreateOpenConnectionsLoop]
    rw [hstep]
    simp only []
    rw [herr]
    simp only []
    rw [hsucc, hlast]
    simp only [Bool.true_and]
    rw [if_neg Bool.false_ne_true]
    rw [if_pos trivial]

/-- C4 witness: the amended theorem applied at budget 2 with an always
failing, nil-error step: the loop aborts after exactly three attempts
naming both path ends. -/
theorem c4_witness :
    CreateOpenConnections none (fun _ => envReject) chainSrc chainDst 2 3 =
      ⟨.failure (.connectionFailed "ibc0" "clientA" "connAB" "ibc1" "clientB" "connBA"),
        3, chainSrc, chainDst⟩ :=
  c4_amended_budget_and_reset.1 (fun _ => envReject) chainSrc chainDst 2 3
    (by decide) (by decide) (fun _ => ⟨[rejectSubmission], envReject_step⟩)
